import Mathlib

/-!
Verification development for the deforisk geospatial utility scripts.

The definitions below are a shallow embedding, translated from the Python
sources under `component/script/`:

* `dask_ee_raster_export.py` — `export_raster_with_dask`, its inner worker
  `_raster_export`, and `download_ee_image`;
* `dask_ee_vector_export.py` — `export_vector_with_dask` and `_vector_export`;
* `dask_distance_xarray_spatial.py` — `_distance_dask` and its shared
  `Lock("rio")` write critical section;
* `ee_fao_gaul.py` — `get_fao_gaul_features`;
* `rasterio/unmask.py` — `unmask_raster`;
* `utilities/file_helpers.py` — `filter_file_os` and `filter_files`.

Earth-Engine objects are modelled symbolically (operation traces), the Dask
pool by an explicit list of dispatched tasks, keyword passthrough by an
association list with Python call-binding semantics (a duplicate between an
explicitly written keyword argument and an entry of an expanded `**kwargs`
dict raises `TypeError` when the call expression is evaluated), and the
distributed named lock by a small interleaving transition system.
-/

/-- A Python value travelling through `**kwargs` maps.  Only equality is ever
needed, so a small closed universe suffices. -/
inductive PyVal where
  | int : Int → PyVal
  | str : String → PyVal
  | bool : Bool → PyVal
  | pynone : PyVal
deriving DecidableEq, Repr

/-- A Python `**kwargs` dict, as an association list of string keys. -/
abbrev Kw := List (String × PyVal)

/-- Does the kwargs dict contain a key from the given list?  Models the
duplicate-keyword-argument check Python performs when a call mixes explicit
keyword arguments (or already-bound positional parameters) with `**kwargs`. -/
def kwAnyKeyIn (kw : Kw) (ks : List String) : Bool :=
  kw.any (fun pr => ks.contains pr.1)

/-- Entries of the kwargs dict whose key is *not* in the given list.  Models
the residue flowing into a callee's own `**kwargs` after its named parameters
have captured the matching keys. -/
def kwRemoveKeys (kw : Kw) (ks : List String) : Kw :=
  kw.filter (fun pr => !(ks.contains pr.1))

/-- Value bound to a named parameter captured out of `**kwargs`, if any. -/
def kwLookup (kw : Kw) (k : String) : Option PyVal :=
  (kw.find? (fun pr => pr.1 == k)).map Prod.snd

/-- Symbolic Earth-Engine image operation.  A region is identified by a
numeric id (`region_geom.serialize()` round-trips it unchanged). -/
inductive ImgOp where
  | clip : Nat → ImgOp
  | unmask : Int → ImgOp
deriving DecidableEq, Repr

/-- Operation trace applied to the EE image by the raster worker, in
execution order.  First block: `_raster_export` lines 145–149
(`img = img.unmask(um_val, sameFootprint=False).clip(region)` when both the
unmask value and a region are supplied).  Second block: `download_ee_image`
lines 265–269 (`image = image.clip(region)` when a region is supplied, then
`image = image.unmask(unmask_value, sameFootprint=False)`, both only when
`unmask_value` is not `None`). -/
def rasterWorkerOps (um : Option Int) (reg : Option Nat) : List ImgOp :=
  (match um, reg with
    | some v, some r => [ImgOp.unmask v, ImgOp.clip r]
    | _, _ => []) ++
  (match um with
    | some v => (match reg with
        | some r => [ImgOp.clip r]
        | Option.none => []) ++ [ImgOp.unmask v]
    | Option.none => [])

/-- Does the first clip of the trace occur strictly before the first unmask?
This is the order the specification asserts for the raster worker. -/
def clipBeforeUnmask : List ImgOp → Bool
  | [] => false
  | ImgOp.clip _ :: _ => true
  | ImgOp.unmask _ :: _ => false

/-- Arguments of `export_raster_with_dask` that travel to the worker
(the export descriptor, minus the `overwrite` flag which is passed
separately). -/
structure RasterParams where
  filename : String
  scale : Int
  crs : String
  region : Option Nat
  unmaskValue : Option Int
  nodataValue : Option Int
  project : Option String
  kwargs : Kw
deriving DecidableEq, Repr

/-- Arguments of `export_vector_with_dask` that travel to the worker.  Note
the source forwards `filename`, `selectors` and `project` but not
`overwrite`. -/
structure VectorParams where
  filename : String
  selectors : Option (List String)
  project : Option String
  kwargs : Kw
deriving DecidableEq, Repr

/-- A unit of work dispatched to the Dask pool by `client.submit`.
`noop` is the `lambda: None` submitted on the skip path. -/
inductive PoolTask where
  | noop : PoolTask
  | rasterTask : RasterParams → Bool → PoolTask
  | vectorTask : VectorParams → PoolTask
deriving DecidableEq, Repr

/-- The future returned to the caller.  `client.submit` always returns a
future pending on a pool task; `resolvedSkipped` is the already-resolved
skip marker the specification describes, which the source never builds. -/
inductive FutureVal where
  | pendingTask : PoolTask → FutureVal
  | resolvedSkipped : FutureVal
deriving DecidableEq, Repr

/-- Observable outcome of one submission call: warning-level log lines
emitted, tasks dispatched to the pool (each consumes a worker slot), and the
returned future. -/
structure SubmitOutcome where
  warnings : Nat
  dispatched : List PoolTask
  future : FutureVal
deriving DecidableEq, Repr

/-- Embedding of `export_raster_with_dask` (lines 95–178).  `fileExists`
models `Path(filename).exists()` at the submission site.  On the skip branch
the source logs a warning and returns `client.submit(lambda: None)`.
Otherwise it evaluates `client.submit(_raster_export, …, proj=project,
overw=overwrite, **kwargs)`; a kwargs key equal to `proj` or `overw` makes
that call expression itself raise `TypeError` (duplicate keyword). -/
def export_raster_with_dask (p : RasterParams) (overwrite fileExists : Bool) :
    Except String SubmitOutcome :=
  if !overwrite && fileExists then
    Except.ok { warnings := 1, dispatched := [PoolTask.noop],
                future := FutureVal.pendingTask PoolTask.noop }
  else if kwAnyKeyIn p.kwargs ["proj", "overw"] then
    Except.error "TypeError: got multiple values for keyword argument"
  else
    Except.ok { warnings := 0, dispatched := [PoolTask.rasterTask p overwrite],
                future := FutureVal.pendingTask (PoolTask.rasterTask p overwrite) }

/-- Embedding of `export_vector_with_dask` (lines 73–133).  The submit call
passes only positional arguments besides `**kwargs`, so no duplicate keyword
can arise at the submission site. -/
def export_vector_with_dask (q : VectorParams) (overwrite fileExists : Bool) :
    Except String SubmitOutcome :=
  if !overwrite && fileExists then
    Except.ok { warnings := 1, dispatched := [PoolTask.noop],
                future := FutureVal.pendingTask PoolTask.noop }
  else
    Except.ok { warnings := 0, dispatched := [PoolTask.vectorTask q],
                future := FutureVal.pendingTask (PoolTask.vectorTask q) }

/-- The nodata argument handed to `toGeoTIFF` by `download_ee_image`
lines 279–284: `nodata=True` when `nodata_value is None`, the value
otherwise. -/
inductive NodataArg where
  | auto : NodataArg
  | value : Int → NodataArg
deriving DecidableEq, Repr

/-- Backend calls performed on a worker. -/
inductive BackendCall where
  /-- `img.gd.prepareForExport(crs=…, region=…, scale=…, resampling=…,
  dtype=…)`, recording the image operation trace applied beforehand. -/
  | prepare : List ImgOp → String → Option Nat → Int → PyVal → Option PyVal →
      BackendCall
  /-- `img.gd.toGeoTIFF(file=…, overwrite=…, nodata=…, **kwargs)`. -/
  | writeTIFF : String → Bool → NodataArg → Kw → BackendCall
  /-- `geemap.ee_export_vector(ee_object=…, filename=…, selectors=…, …)`. -/
  | exportVector : String → List String → Kw → BackendCall
  /-- `distance.rio.to_raster(output_file, …)` in `_distance_dask`. -/
  | rioWrite : String → BackendCall
deriving DecidableEq, Repr

/-- Worker-side effect: a backend call, or a named-lock operation. -/
inductive Eff where
  | backend : BackendCall → Eff
  | lockAcquire : String → Eff
  | lockRelease : String → Eff
deriving DecidableEq, Repr

/-- Number of backend calls in an effect trace. -/
def countBackendCalls : List Eff → Nat
  | [] => 0
  | Eff.backend _ :: es => countBackendCalls es + 1
  | _ :: es => countBackendCalls es

/-- Number of lock acquisitions in an effect trace. -/
def countLockAcquires : List Eff → Nat
  | [] => 0
  | Eff.lockAcquire _ :: es => countLockAcquires es + 1
  | _ :: es => countLockAcquires es

/-- Positional parameter names of `_raster_export`; a kwargs key equal to one
of them makes the worker-side call raise `TypeError`. -/
def rasterWorkerBoundKeys : List String :=
  ["img_json", "fn", "scl", "crs_name", "reg_json", "um_val", "nd_val"]

/-- Keyword arguments `_raster_export` writes explicitly in its call to
`download_ee_image` (lines 151–161); a kwargs key equal to one of them makes
that call raise `TypeError`. -/
def downloadExplicitKeys : List String :=
  ["image", "filename", "region", "crs", "scale",
   "overwrite", "unmask_value", "nodata_value"]

/-- Named parameters of `download_ee_image` that capture kwargs keys.  Of
these only `resampling` and `dtype` are forwarded (to `prepareForExport`);
`crs_transform`, `num_threads`, `max_tile_size`, `max_tile_dim`, `shape` and
`scale_offset` are accepted and then never used. -/
def downloadNamedKeys : List String :=
  ["crs_transform", "resampling", "dtype", "num_threads",
   "max_tile_size", "max_tile_dim", "shape", "scale_offset"]

/-- Keyword arguments written explicitly in the `toGeoTIFF` call
(lines 279–284). -/
def toGeoTIFFExplicitKeys : List String := ["file", "overwrite", "nodata"]

/-- Positional parameter names of `_vector_export`. -/
def vectorWorkerBoundKeys : List String :=
  ["ee_object_json", "fn", "sel", "project"]

/-- Keyword arguments `_vector_export` writes explicitly in its call to
`geemap.ee_export_vector` (lines 113–121). -/
def geemapExplicitKeys : List String :=
  ["ee_object", "filename", "selectors", "keep_zip", "timeout", "verbose"]

/-- `NodataArg` chosen by `download_ee_image` from its `nodata_value`. -/
def nodataArgOf : Option Int → NodataArg
  | Option.none => NodataArg.auto
  | some n => NodataArg.value n

/-- Embedding of the raster worker: `_raster_export` (lines 119–161) followed
by `download_ee_image` (lines 184–284).  `useMkdocs` models the
`os.environ.get("USE_MKDOCS")` early exit at line 251.  Errors abort the
worker before any further effect; a `TypeError` raised by the `toGeoTIFF`
call would strictly speaking follow the `prepareForExport` call, but no
claim depends on that partial trace, so the error result carries no trace. -/
def runRasterTask (p : RasterParams) (overw useMkdocs : Bool) :
    Except String (List Eff) :=
  if kwAnyKeyIn p.kwargs rasterWorkerBoundKeys then
    Except.error "TypeError: got multiple values for keyword argument"
  else if kwAnyKeyIn p.kwargs downloadExplicitKeys then
    Except.error "TypeError: got multiple values for keyword argument"
  else if useMkdocs then
    Except.ok []
  else
    let rest := kwRemoveKeys p.kwargs downloadNamedKeys
    if kwAnyKeyIn rest toGeoTIFFExplicitKeys then
      Except.error "TypeError: got multiple values for keyword argument"
    else
      Except.ok
        [Eff.backend (BackendCall.prepare
            (rasterWorkerOps p.unmaskValue p.region) p.crs p.region p.scale
            ((kwLookup p.kwargs "resampling").getD (PyVal.str "near"))
            (kwLookup p.kwargs "dtype")),
         Eff.backend (BackendCall.writeTIFF p.filename overw
            (nodataArgOf p.nodataValue) rest)]

/-- Embedding of the vector worker `_vector_export` (lines 94–121): after
binding, it calls `geemap.ee_export_vector` with `keep_zip=False`,
`timeout=600`, `verbose=False` and the forwarded kwargs. -/
def runVectorTask (q : VectorParams) : Except String (List Eff) :=
  if kwAnyKeyIn q.kwargs vectorWorkerBoundKeys then
    Except.error "TypeError: got multiple values for keyword argument"
  else if kwAnyKeyIn q.kwargs geemapExplicitKeys then
    Except.error "TypeError: got multiple values for keyword argument"
  else
    Except.ok
      [Eff.backend (BackendCall.exportVector q.filename (q.selectors.getD [])
        ([("keep_zip", PyVal.bool false), ("timeout", PyVal.int 600),
          ("verbose", PyVal.bool false)] ++ q.kwargs))]

/-- Embedding of `_distance_dask` (lines 96–144) at the effect level: the
write of the result raster happens under the distributed `Lock("rio")`
(line 139), acquired by the writer and released when the locked scope is
left. -/
def runDistanceTask (outputFile : String) : List Eff :=
  [Eff.lockAcquire "rio", Eff.backend (BackendCall.rioWrite outputFile),
   Eff.lockRelease "rio"]

/-- Effects of running one pool task on a worker. -/
def runTask (t : PoolTask) (useMkdocs : Bool) : Except String (List Eff) :=
  match t with
  | PoolTask.noop => Except.ok []
  | PoolTask.rasterTask p ov => runRasterTask p ov useMkdocs
  | PoolTask.vectorTask q => runVectorTask q

/-- Nodata argument of the `toGeoTIFF` call in an effect trace, if any. -/
def writtenNodata : List Eff → Option NodataArg
  | [] => Option.none
  | Eff.backend (BackendCall.writeTIFF _ _ nd _) :: _ => some nd
  | _ :: es => writtenNodata es

/-- Extra options of the writer backend call in an effect trace, if any. -/
def writtenOpts : List Eff → Option Kw
  | [] => Option.none
  | Eff.backend (BackendCall.writeTIFF _ _ _ os) :: _ => some os
  | Eff.backend (BackendCall.exportVector _ _ os) :: _ => some os
  | _ :: es => writtenOpts es

/-- Nodata argument the raster pipeline hands to the writer under a normal
environment. -/
def rasterRunNodata (p : RasterParams) (ov : Bool) : Option NodataArg :=
  match runRasterTask p ov false with
  | Except.ok es => writtenNodata es
  | Except.error _ => Option.none

/-- Writer options of the raster pipeline under a normal environment. -/
def rasterRunOpts (p : RasterParams) (ov : Bool) : Option Kw :=
  match runRasterTask p ov false with
  | Except.ok es => writtenOpts es
  | Except.error _ => Option.none

/-- Writer options of the vector pipeline. -/
def vectorRunOpts (q : VectorParams) : Option Kw :=
  match runVectorTask q with
  | Except.ok es => writtenOpts es
  | Except.error _ => Option.none

/-!
Write-coordinator lock.  `_distance_dask` writes every output through
`Lock("rio")` — one named distributed lock shared by all concurrently
dispatched distance tasks (the "raster-writer" resource class).  The writer
acquires the lock before entering the write critical section and the locked
scope releases it on both normal and exceptional exit.  The interleaving of
N such tasks is modelled as a transition system.
-/

/-- Program counter of one task with respect to the write critical
section. -/
inductive PC where
  | start : PC
  | cs : PC
  | done : PC
  | failed : PC
deriving DecidableEq, Repr

/-- Global state of the pool: each task's program counter and the current
holder of the shared resource-class lock. -/
structure LState (n : Nat) where
  pc : Fin n → PC
  holder : Option (Fin n)

/-- One interleaving step.  `acquire` models `Lock("rio")` being granted to a
waiting task (only when free); `finishOk` and `finishErr` model the locked
write scope being left — normally, or through an injected backend exception
or cancellation signal — which releases the lock in the same step, as the
scoped acquisition does. -/
inductive LStep (n : Nat) : LState n → LState n → Prop where
  | acquire (s : LState n) (i : Fin n) :
      s.pc i = PC.start → s.holder = Option.none →
      LStep n s { pc := Function.update s.pc i PC.cs, holder := some i }
  | finishOk (s : LState n) (i : Fin n) :
      s.pc i = PC.cs → s.holder = some i →
      LStep n s { pc := Function.update s.pc i PC.done, holder := Option.none }
  | finishErr (s : LState n) (i : Fin n) :
      s.pc i = PC.cs → s.holder = some i →
      LStep n s { pc := Function.update s.pc i PC.failed, holder := Option.none }

/-- Initial state: every task dispatched and waiting, lock free. -/
def LInit (n : Nat) : LState n :=
  { pc := fun _ => PC.start, holder := Option.none }

/-- States reachable by interleaving the pool's tasks. -/
def LReach (n : Nat) (s : LState n) : Prop :=
  Relation.ReflTransGen (LStep n) (LInit n) s

/-- Lock invariant: a task is inside the write critical section exactly when
it holds the resource-class lock. -/
def LInv {n : Nat} (s : LState n) : Prop :=
  ∀ i, s.pc i = PC.cs ↔ s.holder = some i

theorem linv_init (n : Nat) : LInv (LInit n) :=
  fun _ => ⟨fun h => PC.noConfusion h, fun h => Option.noConfusion h⟩

theorem linv_step {n : Nat} {s t : LState n} (hst : LStep n s t)
    (hinv : LInv s) : LInv t := by
  cases hst with
  | acquire i hpc hold =>
      intro j
      show Function.update s.pc i PC.cs j = PC.cs ↔ some i = some j
      rw [Function.update_apply]
      by_cases hj : j = i
      · subst hj
        simp
      · rw [if_neg hj]
        constructor
        · intro hcs
          have h1 := (hinv j).mp hcs
          rw [hold] at h1
          exact Option.noConfusion h1
        · intro h2
          injection h2 with h3
          exact absurd h3.symm hj
  | finishOk i hpc hold =>
      intro j
      show Function.update s.pc i PC.done j = PC.cs ↔
        (Option.none : Option (Fin n)) = some j
      constructor
      · intro hcs
        rw [Function.update_apply] at hcs
        by_cases hj : j = i
        · rw [if_pos hj] at hcs
          exact PC.noConfusion hcs
        · rw [if_neg hj] at hcs
          have h1 := (hinv j).mp hcs
          rw [hold] at h1
          injection h1 with h3
          exact absurd h3.symm hj
      · intro h
        exact Option.noConfusion h
  | finishErr i hpc hold =>
      intro j
      show Function.update s.pc i PC.failed j = PC.cs ↔
        (Option.none : Option (Fin n)) = some j
      constructor
      · intro hcs
        rw [Function.update_apply] at hcs
        by_cases hj : j = i
        · rw [if_pos hj] at hcs
          exact PC.noConfusion hcs
        · rw [if_neg hj] at hcs
          have h1 := (hinv j).mp hcs
          rw [hold] at h1
          injection h1 with h3
          exact absurd h3.symm hj
      · intro h
        exact Option.noConfusion h

theorem linv_reach {n : Nat} {s : LState n} (h : LReach n s) : LInv s := by
  induction h with
  | refl => exact linv_init n
  | tail _ hstep ih => exact linv_step hstep ih

/-!
Administrative-boundary lookup, `ee_fao_gaul.py`.
-/

/-- Symbolic Earth-Engine feature collection expression. -/
inductive EEFC where
  | table : String → EEFC
  | filteredEq : EEFC → String → String → EEFC
deriving DecidableEq, Repr

/-- The `gaul_paths` dict of `get_fao_gaul_features` (lines 59–63; only
keys 0, 1, 2 are ever read). -/
def gaulPath (level : Int) : String :=
  if level = 0 then "projects/sat-io/open-datasets/FAO/GAUL/GAUL_2024_L0"
  else if level = 1 then "projects/sat-io/open-datasets/FAO/GAUL/GAUL_2024_L1"
  else "projects/sat-io/open-datasets/FAO/GAUL/GAUL_2024_L2"

/-- Python truthiness test `not code` for an optional string: true for
`None` and for the empty string. -/
def pyFalsy : Option String → Bool
  | Option.none => true
  | some s => s == ""

/-- Embedding of `get_fao_gaul_features` (lines 11–71): validate the level,
require a truthy code, then return the level's table filtered by
`ee.Filter.eq(filter_attribute, code)`. -/
def get_fao_gaul_features (level : Int) (code : Option String)
    (filter_attribute : String) : Except String EEFC :=
  if ¬(level = 0 ∨ level = 1 ∨ level = 2) then
    Except.error "`level` must be 0, 1, or 2."
  else if pyFalsy code then
    Except.error "`code` must be provided."
  else
    Except.ok (EEFC.filteredEq (EEFC.table (gaulPath level)) filter_attribute
      (code.getD ""))

/-- Is the result a raised error? -/
def exceptIsErr {ε α : Type} : Except ε α → Bool
  | Except.error _ => true
  | Except.ok _ => false

/-!
Raster unmasking, `rasterio/unmask.py`.
-/

/-- A single-band raster: band-1 pixel values plus the nodata metadata
entry. -/
structure Raster where
  data : List Int
  nodata : Option Int
deriving DecidableEq, Repr

/-- Embedding of `unmask_raster` (lines 4–32): when the source declares a
nodata value, pixels equal to it are set to 0; the output metadata always
declares nodata 255. -/
def unmask_raster (src : Raster) : Raster :=
  { data :=
      match src.nodata with
      | some nd => src.data.map (fun x => if x = nd then 0 else x)
      | Option.none => src.data,
    nodata := some 255 }

/-!
Filename filtering, `utilities/file_helpers.py`.  Paths are POSIX strings,
handled as character lists.
-/

/-- ASCII-style lowercasing of a character list, modelling `str.lower()`
on the filenames and filter words used here. -/
def toLowerL (l : List Char) : List Char := l.map Char.toLower

/-- Split a character list on `/` separators; always returns at least one
(possibly empty) component, like `"x".split("/")`. -/
def splitSlash : List Char → List (List Char)
  | [] => [[]]
  | c :: t =>
    if c = '/' then [] :: splitSlash t
    else
      match splitSlash t with
      | [] => [[c]]
      | h :: r => (c :: h) :: r

/-- `os.path.basename` on POSIX: everything after the last separator (empty
for a path ending in `/`). -/
def osBasename (p : List Char) : List Char :=
  ((splitSlash p).getLast?).getD []

/-- Component filter `pathlib` applies when parsing a POSIX path: empty
components and `.` components are dropped. -/
def plKeep (c : List Char) : Bool := !(c == ([] : List Char) || c == ['.'])

/-- `Path(p).name` on POSIX: the last surviving component of the parsed
path, or empty when none survives. -/
def plName (p : List Char) : List Char :=
  (((splitSlash p).filter plKeep).getLast?).getD []

/-- Python substring membership `needle in haystack`, step 1: list starts
with the needle. -/
def startsWithL : List Char → List Char → Bool
  | [], _ => true
  | _ :: _, [] => false
  | a :: s, b :: t => a == b && startsWithL s t

/-- Python substring membership `needle in haystack`. -/
def containsSub (nd : List Char) : List Char → Bool
  | [] => nd.isEmpty
  | c :: t => startsWithL nd (c :: t) || containsSub nd t

/-- The common per-file predicate of `filter_file_os` and `filter_files`:
all (pre-lowercased) filter words occur in the lowercased name, and no
exclude word does.  The two sources differ only in `nameOf`
(`os.path.basename` versus `Path(...).name`). -/
def fileKeep (nameOf : List Char → List Char) (fws ews : List (List Char))
    (f : List Char) : Bool :=
  (fws.all (fun w => containsSub w (toLowerL (nameOf f)))) &&
  !(ews.any (fun w => containsSub w (toLowerL (nameOf f))))

/-- Embedding of `filter_file_os` (lines 68–94). -/
def filter_file_os (input_files fws : List (List Char))
    (ews : Option (List (List Char))) : List (List Char) :=
  input_files.filter
    (fileKeep osBasename (fws.map toLowerL) ((ews.getD []).map toLowerL))

/-- Embedding of `filter_files` (lines 100–125). -/
def filter_files (input_files fws : List (List Char))
    (ews : Option (List (List Char))) : List (List Char) :=
  input_files.filter
    (fileKeep plName (fws.map toLowerL) ((ews.getD []).map toLowerL))

theorem splitSlash_ne_nil : ∀ l : List Char, splitSlash l ≠ []
  | [] => by simp [splitSlash]
  | c :: t => by
      simp only [splitSlash]
      split
      · simp
      · split <;> simp

theorem getLastOpt_of_ne_nil {α : Type} :
    ∀ l : List α, l ≠ [] → ∃ y, l.getLast? = some y
  | [], h => absurd rfl h
  | [a], _ => ⟨a, rfl⟩
  | a :: b :: t, _ => by
      obtain ⟨y, hy⟩ := getLastOpt_of_ne_nil (b :: t) (by simp)
      exact ⟨y, by rw [List.getLast?_cons_cons]; exact hy⟩

theorem lastOfFilter {α : Type} (q : α → Bool) :
    ∀ (L : List α) (x : α), L.getLast? = some x → q x = true →
      (L.filter q).getLast? = some x
  | [], x, h, _ => by simp at h
  | [a], x, h, hq => by
      simp at h
      subst h
      simp [List.filter, hq]
  | a :: b :: t, x, h, hq => by
      rw [List.getLast?_cons_cons] at h
      have ht := lastOfFilter q (b :: t) x h hq
      by_cases hqa : q a = true
      · rw [List.filter_cons_of_pos hqa]
        cases hfil : (b :: t).filter q with
        | nil => rw [hfil] at ht; simp at ht
        | cons y ys =>
            rw [hfil] at ht
            rw [List.getLast?_cons_cons]
            exact ht
      · rw [List.filter_cons_of_neg (by simpa using hqa)]
        exact ht

theorem plName_eq_osBasename (f : List Char) (h1 : osBasename f ≠ [])
    (h2 : osBasename f ≠ ['.']) : plName f = osBasename f := by
  obtain ⟨y, hy⟩ := getLastOpt_of_ne_nil (splitSlash f) (splitSlash_ne_nil f)
  have hb : osBasename f = y := by
    simp [osBasename, hy]
  have hk : plKeep y = true := by
    rw [hb] at h1 h2
    simp [plKeep]
    exact ⟨h1, h2⟩
  have := lastOfFilter plKeep (splitSlash f) y hy hk
  simp [plName, this, hb]

theorem filter_congr_local {α : Type} (p q : α → Bool) :
    ∀ l : List α, (∀ x ∈ l, p x = q x) → l.filter p = l.filter q
  | [], _ => rfl
  | a :: t, h => by
      have ha := h a (by simp)
      have ht := filter_congr_local p q t (fun x hx => h x (by simp [hx]))
      by_cases hp : p a = true
      · rw [List.filter_cons_of_pos hp, List.filter_cons_of_pos (ha ▸ hp), ht]
      · have hp2 : ¬q a = true := by rw [← ha]; exact hp
        rw [List.filter_cons_of_neg (by simpa using hp),
          List.filter_cons_of_neg (by simpa using hp2), ht]

/-!
Claim theorems.
-/

/-- Concrete descriptor used to exercise the skip path: an export of
`/tmp/out.tif` at scale 30 in EPSG:4326 with no optional arguments. -/
def rp1 : RasterParams :=
  { filename := "/tmp/out.tif", scale := 30, crs := "EPSG:4326",
    region := Option.none, unmaskValue := Option.none,
    nodataValue := Option.none, project := Option.none, kwargs := [] }

/-- C1, counterexample.  With `overwrite=false` and an existing target, the
submitter does log one warning, but it returns `client.submit(lambda: None)`:
a no-op task IS dispatched to the pool (a worker slot is consumed) and the
returned future is pending on it, not an already-resolved skipped future.
This refutes the claim's "already-resolved" and "no worker slot is consumed"
conjuncts at a concrete input. -/
theorem claim1_counterexample :
    export_raster_with_dask rp1 false true =
      Except.ok { warnings := 1, dispatched := [PoolTask.noop],
                  future := FutureVal.pendingTask PoolTask.noop } ∧
    FutureVal.pendingTask PoolTask.noop ≠ FutureVal.resolvedSkipped ∧
    ([PoolTask.noop] : List PoolTask) ≠ [] :=
  ⟨rfl, by decide, by decide⟩

/-- C1, amended.  For every raster or vector submission with
`overwrite=false` and an existing target path, the submitter emits one
warning-level log line and returns a future bound to a no-op task submitted
to the pool (so one worker slot is consumed and the future is not
pre-resolved); running that no-op produces an empty effect trace, so no lock
is acquired and no backend transform call occurs. -/
theorem claim1_amended (p : RasterParams) (q : VectorParams) (mk : Bool) :
    export_raster_with_dask p false true =
      Except.ok { warnings := 1, dispatched := [PoolTask.noop],
                  future := FutureVal.pendingTask PoolTask.noop } ∧
    export_vector_with_dask q false true =
      Except.ok { warnings := 1, dispatched := [PoolTask.noop],
                  future := FutureVal.pendingTask PoolTask.noop } ∧
    runTask PoolTask.noop mk = Except.ok [] ∧
    countLockAcquires [] = 0 ∧ countBackendCalls [] = 0 :=
  ⟨rfl, rfl, rfl, rfl, rfl⟩

/-- C2, counterexample.  With unmask sentinel 255 and a region supplied, the
raster worker's operation trace starts with the unmask, not with a clip:
`_raster_export` computes `img.unmask(um_val, sameFootprint=False)
.clip(region)`, so the sentinel is applied to the image before any clipping,
refuting the claimed clip-before-unmask order. -/
theorem claim2_counterexample :
    clipBeforeUnmask (rasterWorkerOps (some 255) (some 0)) = false :=
  rfl

/-- C2, amended.  When both a region and an unmask sentinel are supplied,
the raster worker first applies the unmask sentinel and then clips
(`_raster_export` line 149); `download_ee_image` afterwards clips and
unmasks once more, so the full trace is unmask, clip, clip, unmask — the
first sentinel application precedes the first clip. -/
theorem claim2_amended (v : Int) (r : Nat) :
    rasterWorkerOps (some v) (some r) =
      [ImgOp.unmask v, ImgOp.clip r, ImgOp.clip r, ImgOp.unmask v] :=
  rfl

/-- Pool state (two tasks) after task 0 has acquired the resource-class
lock and entered the write critical section. -/
def lockS1 : LState 2 :=
  { pc := Function.update (LInit 2).pc 0 PC.cs, holder := some 0 }

theorem lockS1_reach : LReach 2 lockS1 :=
  Relation.ReflTransGen.single (LStep.acquire (LInit 2) 0 rfl rfl)

/-- Pool state (two tasks) after task 0 failed inside the critical section:
the scoped acquisition released the lock in the same step. -/
def lockS2 : LState 2 :=
  { pc := Function.update lockS1.pc 0 PC.failed, holder := Option.none }

theorem lockS2_reach : LReach 2 lockS2 :=
  Relation.ReflTransGen.tail lockS1_reach
    (LStep.finishErr lockS1 0 rfl rfl)

/-- C3: mutual exclusion.  In every state reachable by interleaving N
concurrently dispatched tasks that share the one `Lock("rio")`
resource-class lock, at most one task is inside the write critical
section. -/
theorem claim3_mutex (n : Nat) (s : LState n) (h : LReach n s) :
    (Finset.univ.filter (fun i => s.pc i = PC.cs)).card ≤ 1 := by
  rw [Finset.card_le_one]
  intro a ha b hb
  rw [Finset.mem_filter] at ha hb
  have h1 := (linv_reach h a).mp ha.2
  have h2 := (linv_reach h b).mp hb.2
  exact Option.some.inj (h1.symm.trans h2)

/-- C3 witness: the mutual-exclusion bound evaluated in the concrete
reachable state where task 0 of a two-task pool holds the lock. -/
theorem claim3_witness :
    (Finset.univ.filter (fun i => lockS1.pc i = PC.cs)).card ≤ 1 :=
  claim3_mutex 2 lockS1 lockS1_reach

/-- C4: lock release on every exit path.  In every reachable state the lock
is held only by a task currently inside the critical section — so a task
that completed, failed, or was cancelled no longer holds it — and whenever
the lock is free, any dispatched task can immediately acquire it (the lock
is free for the next acquirer). -/
theorem claim4_release (n : Nat) (s : LState n) (i j : Fin n)
    (h : LReach n s) :
    (s.holder = some i → s.pc i = PC.cs) ∧
    (s.holder = Option.none → s.pc j = PC.start →
      LStep n s { pc := Function.update s.pc j PC.cs, holder := some j }) :=
  ⟨fun hi => (linv_reach h i).mpr hi,
   fun hn hj => LStep.acquire s j hj hn⟩

/-- C4 witness: in the concrete reachable state where task 0 of a two-task
pool failed inside the critical section, the theorem shows the failed task
does not hold the lock and the waiting task 1 can acquire it. -/
theorem claim4_witness :
    (lockS2.holder = some (0 : Fin 2) → lockS2.pc 0 = PC.cs) ∧
    (lockS2.holder = Option.none → lockS2.pc 1 = PC.start →
      LStep 2 lockS2
        { pc := Function.update lockS2.pc 1 PC.cs, holder := some 1 }) :=
  claim4_release 2 lockS2 0 1 lockS2_reach

/-- Helper: with collision-free kwargs and a normal environment, the raster
worker performs exactly the `prepareForExport` and `toGeoTIFF` backend
calls. -/
theorem runRasterTask_ok (p : RasterParams) (ov : Bool)
    (h2 : kwAnyKeyIn p.kwargs rasterWorkerBoundKeys = false)
    (h3 : kwAnyKeyIn p.kwargs downloadExplicitKeys = false)
    (h4 : kwAnyKeyIn (kwRemoveKeys p.kwargs downloadNamedKeys)
      toGeoTIFFExplicitKeys = false) :
    runRasterTask p ov false = Except.ok
      [Eff.backend (BackendCall.prepare
          (rasterWorkerOps p.unmaskValue p.region) p.crs p.region p.scale
          ((kwLookup p.kwargs "resampling").getD (PyVal.str "near"))
          (kwLookup p.kwargs "dtype")),
       Eff.backend (BackendCall.writeTIFF p.filename ov
          (nodataArgOf p.nodataValue)
          (kwRemoveKeys p.kwargs downloadNamedKeys))] := by
  simp [runRasterTask, h2, h3, h4]

/-- Helper: with collision-free kwargs the vector worker performs exactly
the `ee_export_vector` backend call, with the fixed options followed by the
forwarded kwargs. -/
theorem runVectorTask_ok (q : VectorParams)
    (h5 : kwAnyKeyIn q.kwargs vectorWorkerBoundKeys = false)
    (h6 : kwAnyKeyIn q.kwargs geemapExplicitKeys = false) :
    runVectorTask q = Except.ok
      [Eff.backend (BackendCall.exportVector q.filename (q.selectors.getD [])
        ([("keep_zip", PyVal.bool false), ("timeout", PyVal.int 600),
          ("verbose", PyVal.bool false)] ++ q.kwargs))] := by
  simp [runVectorTask, h5, h6]

/-- C5: with `overwrite=true` the existence pre-check is bypassed on both
export paths, a worker task is dispatched regardless of whether the target
path exists, and (under a normal environment, with kwargs that do not
collide with explicitly bound argument names) running that task performs at
least one backend transform call. -/
theorem claim5_backend_invoked (p : RasterParams) (q : VectorParams)
    (ex ex2 : Bool)
    (h1 : kwAnyKeyIn p.kwargs ["proj", "overw"] = false)
    (h2 : kwAnyKeyIn p.kwargs rasterWorkerBoundKeys = false)
    (h3 : kwAnyKeyIn p.kwargs downloadExplicitKeys = false)
    (h4 : kwAnyKeyIn (kwRemoveKeys p.kwargs downloadNamedKeys)
      toGeoTIFFExplicitKeys = false)
    (h5 : kwAnyKeyIn q.kwargs vectorWorkerBoundKeys = false)
    (h6 : kwAnyKeyIn q.kwargs geemapExplicitKeys = false) :
    export_raster_with_dask p true ex = Except.ok
      { warnings := 0, dispatched := [PoolTask.rasterTask p true],
        future := FutureVal.pendingTask (PoolTask.rasterTask p true) } ∧
    export_vector_with_dask q true ex2 = Except.ok
      { warnings := 0, dispatched := [PoolTask.vectorTask q],
        future := FutureVal.pendingTask (PoolTask.vectorTask q) } ∧
    (∃ es, runTask (PoolTask.rasterTask p true) false = Except.ok es ∧
      0 < countBackendCalls es) ∧
    (∃ es, runTask (PoolTask.vectorTask q) false = Except.ok es ∧
      0 < countBackendCalls es) := by
  refine ⟨?_, ?_,
    ⟨[Eff.backend (BackendCall.prepare
        (rasterWorkerOps p.unmaskValue p.region) p.crs p.region p.scale
        ((kwLookup p.kwargs "resampling").getD (PyVal.str "near"))
        (kwLookup p.kwargs "dtype")),
      Eff.backend (BackendCall.writeTIFF p.filename true
        (nodataArgOf p.nodataValue)
        (kwRemoveKeys p.kwargs downloadNamedKeys))], ?_, ?_⟩,
    ⟨[Eff.backend (BackendCall.exportVector q.filename (q.selectors.getD [])
        ([("keep_zip", PyVal.bool false), ("timeout", PyVal.int 600),
          ("verbose", PyVal.bool false)] ++ q.kwargs))], ?_, ?_⟩⟩
  · simp [export_raster_with_dask, h1]
  · simp [export_vector_with_dask]
  · exact runRasterTask_ok p true h2 h3 h4
  · simp [countBackendCalls]
  · exact runVectorTask_ok q h5 h6
  · simp [countBackendCalls]

/-- Concrete raster descriptor with `overwrite=true` semantics exercised. -/
def rp5 : RasterParams :=
  { filename := "/tmp/c5.tif", scale := 30, crs := "EPSG:4326",
    region := some 1, unmaskValue := Option.none, nodataValue := Option.none,
    project := Option.none, kwargs := [] }

/-- Concrete vector descriptor with `overwrite=true` semantics exercised. -/
def vq5 : VectorParams :=
  { filename := "/tmp/c5.shp", selectors := some ["name"],
    project := Option.none, kwargs := [] }

/-- C5 witness: concrete submissions with `overwrite=true` onto an existing
target path dispatch the worker tasks and the workers perform backend
calls. -/
theorem claim5_witness :
    export_raster_with_dask rp5 true true = Except.ok
      { warnings := 0, dispatched := [PoolTask.rasterTask rp5 true],
        future := FutureVal.pendingTask (PoolTask.rasterTask rp5 true) } ∧
    export_vector_with_dask vq5 true true = Except.ok
      { warnings := 0, dispatched := [PoolTask.vectorTask vq5],
        future := FutureVal.pendingTask (PoolTask.vectorTask vq5) } ∧
    (∃ es, runTask (PoolTask.rasterTask rp5 true) false = Except.ok es ∧
      0 < countBackendCalls es) ∧
    (∃ es, runTask (PoolTask.vectorTask vq5) false = Except.ok es ∧
      0 < countBackendCalls es) :=
  claim5_backend_invoked rp5 vq5 true true rfl rfl rfl rfl rfl rfl

/-- Scenario-B descriptor: `targetPath="/tmp/out.tif"`, `overwrite=true`,
`scale=30`, `crs="EPSG:4326"`, `unmaskSentinel=255`, and no
`nodataSentinel`. -/
def rpB : RasterParams :=
  { filename := "/tmp/out.tif", scale := 30, crs := "EPSG:4326",
    region := Option.none, unmaskValue := some 255,
    nodataValue := Option.none, project := Option.none, kwargs := [] }

/-- C6, counterexample.  On the scenario-B descriptor (unmask sentinel 255,
no nodata sentinel) the writer is invoked with `nodata=True` — letting the
backend pick its dtype default — and not with the value 255, so the claimed
"nodata metadata = 255" is not what the code requests. -/
theorem claim6_counterexample :
    rasterRunNodata rpB true = some NodataArg.auto ∧
    rasterRunNodata rpB true ≠ some (NodataArg.value 255) :=
  ⟨rfl, by decide⟩

/-- C6, amended.  The nodata argument handed to the writer equals the
descriptor's nodata sentinel whenever one is provided; when none is
provided (as in scenario B) the writer is called with the automatic
`nodata=True` flag, not with the unmask sentinel. -/
theorem claim6_amended (p : RasterParams) (ov : Bool) (n : Int)
    (h2 : kwAnyKeyIn p.kwargs rasterWorkerBoundKeys = false)
    (h3 : kwAnyKeyIn p.kwargs downloadExplicitKeys = false)
    (h4 : kwAnyKeyIn (kwRemoveKeys p.kwargs downloadNamedKeys)
      toGeoTIFFExplicitKeys = false) :
    (p.nodataValue = some n → rasterRunNodata p ov = some (NodataArg.value n)) ∧
    (p.nodataValue = Option.none → rasterRunNodata p ov = some NodataArg.auto) := by
  have hr := runRasterTask_ok p ov h2 h3 h4
  constructor <;> intro hn <;>
    simp [rasterRunNodata, hr, writtenNodata, hn, nodataArgOf]

/-- Concrete descriptor carrying a nodata sentinel. -/
def rp6 : RasterParams :=
  { filename := "/tmp/c6.tif", scale := 30, crs := "EPSG:4326",
    region := Option.none, unmaskValue := Option.none,
    nodataValue := some 7, project := Option.none, kwargs := [] }

/-- C6 witness: with nodata sentinel 7 the writer receives nodata 7. -/
theorem claim6_witness :
    (rp6.nodataValue = some 7 →
      rasterRunNodata rp6 true = some (NodataArg.value 7)) ∧
    (rp6.nodataValue = Option.none →
      rasterRunNodata rp6 true = some NodataArg.auto) :=
  claim6_amended rp6 true 7 rfl rfl rfl

/-- Concrete raster descriptor whose passthrough map carries a
`num_threads` entry. -/
def rp7 : RasterParams :=
  { filename := "/tmp/a.tif", scale := 30, crs := "EPSG:4326",
    region := Option.none, unmaskValue := Option.none,
    nodataValue := Option.none, project := Option.none,
    kwargs := [("num_threads", PyVal.int 4)] }

/-- C7, counterexample.  The passthrough entry `num_threads=4` is supplied
at submission, the worker raises no error, yet the full effect trace of the
run shows the entry reaching no backend call: it is captured by the unused
named parameter `num_threads` of `download_ee_image` and silently dropped
(the writer call's extra-options map is empty). -/
theorem claim7_counterexample :
    ("num_threads", PyVal.int 4) ∈ rp7.kwargs ∧
    runRasterTask rp7 true false = Except.ok
      [Eff.backend (BackendCall.prepare [] "EPSG:4326" Option.none 30
          (PyVal.str "near") Option.none),
       Eff.backend (BackendCall.writeTIFF "/tmp/a.tif" true
          NodataArg.auto [])] ∧
    rasterRunOpts rp7 true = some [] :=
  ⟨by decide, rfl, rfl⟩

/-- C7, amended.  A passthrough entry reaches the backend call verbatim
(same key, same value) on both export paths provided its key collides with
none of the explicitly bound argument names (which would raise `TypeError`
on the worker or at submission) and, on the raster path, with none of
`download_ee_image`'s named parameters (`resampling` and `dtype` are
forwarded to the prepare step; `crs_transform`, `num_threads`,
`max_tile_size`, `max_tile_dim`, `shape` and `scale_offset` are silently
consumed). -/
theorem claim7_amended (p : RasterParams) (q : VectorParams)
    (k : String) (v : PyVal)
    (h2 : kwAnyKeyIn p.kwargs rasterWorkerBoundKeys = false)
    (h3 : kwAnyKeyIn p.kwargs downloadExplicitKeys = false)
    (h4 : kwAnyKeyIn (kwRemoveKeys p.kwargs downloadNamedKeys)
      toGeoTIFFExplicitKeys = false)
    (h5 : kwAnyKeyIn q.kwargs vectorWorkerBoundKeys = false)
    (h6 : kwAnyKeyIn q.kwargs geemapExplicitKeys = false)
    (hk : downloadNamedKeys.contains k = false)
    (hp : (k, v) ∈ p.kwargs) (hq : (k, v) ∈ q.kwargs) :
    (∃ os, rasterRunOpts p true = some os ∧ (k, v) ∈ os) ∧
    (∃ os, vectorRunOpts q = some os ∧ (k, v) ∈ os) := by
  constructor
  · refine ⟨kwRemoveKeys p.kwargs downloadNamedKeys, ?_, ?_⟩
    · have hr := runRasterTask_ok p true h2 h3 h4
      simp [rasterRunOpts, hr, writtenOpts]
    · rw [kwRemoveKeys, List.mem_filter]
      exact ⟨hp, by simpa using hk⟩
  · refine ⟨[("keep_zip", PyVal.bool false), ("timeout", PyVal.int 600),
      ("verbose", PyVal.bool false)] ++ q.kwargs, ?_, ?_⟩
    · have hv := runVectorTask_ok q h5 h6
      simp [vectorRunOpts, hv, writtenOpts]
    · exact List.mem_append_right _ hq

/-- Concrete raster descriptor with a benign passthrough option. -/
def rp7w : RasterParams :=
  { filename := "/tmp/c7.tif", scale := 30, crs := "EPSG:4326",
    region := Option.none, unmaskValue := Option.none,
    nodataValue := Option.none, project := Option.none,
    kwargs := [("compress", PyVal.str "LZW")] }

/-- Concrete vector descriptor with a benign passthrough option. -/
def vq7w : VectorParams :=
  { filename := "/tmp/c7.shp", selectors := Option.none,
    project := Option.none, kwargs := [("compress", PyVal.str "LZW")] }

/-- C7 witness: the entry `compress="LZW"` is forwarded verbatim to the
writer call on both paths. -/
theorem claim7_witness :
    (∃ os, rasterRunOpts rp7w true = some os ∧
      ("compress", PyVal.str "LZW") ∈ os) ∧
    (∃ os, vectorRunOpts vq7w = some os ∧
      ("compress", PyVal.str "LZW") ∈ os) :=
  claim7_amended rp7w vq7w "compress" (PyVal.str "LZW")
    rfl rfl rfl rfl rfl (by decide) (by decide) (by decide)

/-- C8: the administrative-boundary lookup raises exactly when the level is
outside {0,1,2} or the code is missing (None or empty); for a valid level
and non-empty code it returns the level's feature collection filtered by
equality of the filter attribute to the code. -/
theorem claim8_gaul (level : Int) (code : Option String) (attr : String)
    (c : String) :
    (exceptIsErr (get_fao_gaul_features level code attr) = true ↔
      (¬(level = 0 ∨ level = 1 ∨ level = 2) ∨ code = Option.none ∨
        code = some "")) ∧
    (code = some c → c ≠ "" → (level = 0 ∨ level = 1 ∨ level = 2) →
      get_fao_gaul_features level code attr =
        Except.ok (EEFC.filteredEq (EEFC.table (gaulPath level)) attr c)) := by
  have hfal : pyFalsy code = true ↔
      (code = Option.none ∨ code = some "") := by
    cases code with
    | none => simp [pyFalsy]
    | some s => simp [pyFalsy]
  constructor
  · by_cases hl : (level = 0 ∨ level = 1 ∨ level = 2)
    · by_cases hf : pyFalsy code = true
      · rw [get_fao_gaul_features, if_neg (not_not_intro hl), if_pos hf]
        exact iff_of_true rfl (Or.inr (hfal.mp hf))
      · rw [get_fao_gaul_features, if_neg (not_not_intro hl), if_neg hf]
        constructor
        · intro hcon
          exact Bool.noConfusion hcon
        · rintro (h | h)
          · exact absurd hl h
          · exact absurd (hfal.mpr h) hf
    · rw [get_fao_gaul_features, if_pos hl]
      exact iff_of_true rfl (Or.inl hl)
  · intro hc hcne hlv
    subst hc
    rw [get_fao_gaul_features, if_neg (not_not_intro hlv),
      if_neg (by simp [pyFalsy, hcne])]
    rfl

/-- C8 witness: level 0 with code "BRA" returns the country table filtered
on the attribute without raising. -/
theorem claim8_witness :
    get_fao_gaul_features 0 (some "BRA") "iso3_code" =
      Except.ok (EEFC.filteredEq (EEFC.table (gaulPath 0)) "iso3_code"
        "BRA") :=
  (claim8_gaul 0 (some "BRA") "iso3_code" "BRA").2 rfl (by decide)
    (Or.inl rfl)

/-- C9: for every single-band raster, the output of `unmask_raster` always
declares nodata 255; its band keeps the input length, and pixel-wise a value
equal to the input's declared nodata becomes 0 while every other value —
and, when no nodata is declared, every value — is copied unchanged. -/
theorem claim9_unmask (src : Raster) (i : Nat) :
    (unmask_raster src).nodata = some 255 ∧
    (unmask_raster src).data.length = src.data.length ∧
    (unmask_raster src).data[i]? = (src.data[i]?).map (fun x =>
      match src.nodata with
      | some nd => if x = nd then 0 else x
      | Option.none => x) := by
  refine ⟨rfl, ?_, ?_⟩
  · unfold unmask_raster
    cases src.nodata <;> simp
  · unfold unmask_raster
    cases hsn : src.nodata with
    | none =>
        cases src.data[i]? <;> simp
    | some nd => simp [List.getElem?_map]

/-- C10, counterexample.  On the one-element input `["foo/"]` with filter
word `"foo"`, `filter_file_os` drops the path (`os.path.basename` of a path
with a trailing separator is empty) while `filter_files` keeps it
(`Path("foo/").name` is `"foo"`), so the two implementations are not
equivalent. -/
theorem claim10_counterexample :
    filter_file_os ["foo/".data] ["foo".data] Option.none ≠
      filter_files ["foo/".data] ["foo".data] Option.none := by
  decide

/-- C10, amended.  The two filters agree on every input list whose paths
have a non-degenerate basename: whenever each path's `os.path.basename` is
neither empty (no trailing separator) nor `"."`, both implementations
return the same filtered list in the same order, for every choice of
include words and optional exclude words. -/
theorem claim10_amended (files fws : List (List Char))
    (ews : Option (List (List Char)))
    (h : ∀ f ∈ files, osBasename f ≠ [] ∧ osBasename f ≠ ['.']) :
    filter_file_os files fws ews = filter_files files fws ews := by
  unfold filter_file_os filter_files
  apply filter_congr_local
  intro f hf
  simp only [fileKeep]
  rw [plName_eq_osBasename f (h f hf).1 (h f hf).2]

/-- C10 witness: both filters return the same selection on a concrete
well-formed path list. -/
theorem claim10_witness :
    filter_file_os ["dir/a_2020.tif".data] ["2020".data]
        (some ["mask".data]) =
      filter_files ["dir/a_2020.tif".data] ["2020".data]
        (some ["mask".data]) :=
  claim10_amended ["dir/a_2020.tif".data] ["2020".data]
    (some ["mask".data]) (by decide)
